import Mathlib

/-!
Verification of the basement-lights control-panel script.

Shallow embedding of `src/gpt_zero_script.py`.  The script reconciles a
remote home-automation hub (Home Assistant) with an e-paper panel and four
buttons.  Remote reads return JSON state objects; we model the response of
`GET /api/states/{entity_id}` as an optional record (`none` = network
error / timeout / non-success status, i.e. the `except` branch of
`ha_get_state`).  Attribute lookups with `.get` become `Option` fields.

Numeric conventions: the script computes `int(x / y * 100)` and
`int(1_000_000 / x)` on floats; for the integer ranges exercised here
(brightness 0–255, mireds/kelvin up to 10^6) these coincide exactly with
truncated (toward-zero) integer division, which we write `Int.tdiv`.
Python's `a or b` default idiom treats `0` as falsy; it is embedded by
`falsyOr` below.
-/

deriving instance DecidableEq for Except

namespace BasementLights

/-- Configuration constants from the CONFIG section of the script. -/
def LIGHT_ENTITY : String := "light.basement_lights"

def WEATHER_ENTITY : String := "weather.forecast_home"

def ADAPTIVE_SWITCH : String := "switch.adaptive_lighting_basement_adaptive"

def WARM_K : Int := 2700

def NEUTRAL_K : Int := 4000

def COOL_K : Int := 6000

/-- The attributes mapping of an entity-state response.  Keys that the
script looks up with `attrs.get(...)` and that may be missing are `Option`
fields.  `temperature` is a float in the hub's JSON; the claims only
depend on its presence, so it is modelled as an integer. -/
structure Attributes where
  brightness : Option Int
  color_temp : Option Int
  temperature : Option Int
deriving DecidableEq

/-- A JSON entity-state response body.  A real hub response always carries
a `state` string, but the script indexes `data["state"]` on whatever JSON
came back, so the field is optional here; a missing `state` key makes that
indexing raise `KeyError` (the `Except.error` results below). -/
structure HAResponse where
  state : Option String
  attributes : Attributes
deriving DecidableEq

/-- Outcome of `ha_get_state`: `none` when the request raised or returned
a non-success status (the function logs and returns `None`), otherwise the
parsed response. -/
abbrev StateResult := Option HAResponse

/-- The dict returned by `get_light_info`. -/
structure LightInfo where
  state : String
  brightness : Option Int
  brightness_pct : Option Int
  mired : Option Int
  kelvin : Option Int
deriving DecidableEq

/-- The dict returned by `get_weather_info` when it does not return `None`. -/
structure WeatherInfo where
  temp : Int
  condition : String
deriving DecidableEq

/-- The unknown-marker dict `get_light_info` returns when the read failed. -/
def unknownLight : LightInfo :=
  { state := "unknown", brightness := none, brightness_pct := none
    mired := none, kelvin := none }

/-- Python `x or d` for an optional integer `x`: `d` when `x` is `None`
and also when `x` is `0` (zero is falsy). -/
def falsyOr (x : Option Int) (d : Int) : Int :=
  match x with
  | none => d
  | some v => if v = 0 then d else v

/-- `get_light_info` (lines 62–88).  `data["state"]` raises `KeyError`
when the key is absent, hence the `Except`.  `int(bri / 255 * 100)` and
`int(1_000_000 / color_temp)` are toward-zero truncations; `if color_temp:`
guards the kelvin derivation behind Python truthiness, so a present but
zero mired leaves kelvin `None`. -/
def get_light_info (data : StateResult) : Except String LightInfo :=
  match data with
  | none => .ok unknownLight
  | some d =>
    match d.state with
    | none => .error "KeyError: state"
    | some st =>
      let bri := d.attributes.brightness
      let color_temp := d.attributes.color_temp
      let bri_pct : Option Int :=
        match bri with
        | none => none
        | some b => some (Int.tdiv (b * 100) 255)
      let kelvin : Option Int :=
        match color_temp with
        | none => none
        | some ct => if ct = 0 then none else some (Int.tdiv 1000000 ct)
      .ok { state := st, brightness := bri, brightness_pct := bri_pct
            mired := color_temp, kelvin := kelvin }

/-- `get_weather_info` (lines 90–99).  Note the source reads
`cond = data["state"]` before the `temp is None` check, so a present
response without a `state` key raises even when the temperature is also
missing. -/
def get_weather_info (data : StateResult) : Except String (Option WeatherInfo) :=
  match data with
  | none => .ok none
  | some d =>
    let temp := d.attributes.temperature
    match d.state with
    | none => .error "KeyError: state"
    | some cond =>
      match temp with
      | none => .ok none
      | some t => .ok (some { temp := t, condition := cond })

/-- `get_adaptive_on` (lines 101–105).  Uses `data.get("state")`, so it is
total: any failure or malformed response yields `false`. -/
def get_adaptive_on (data : StateResult) : Bool :=
  match data with
  | none => false
  | some d => d.state == some "on"

/-- Payload of a service call (`entity_id` plus the optional parameters the
script ever sets). -/
structure ServicePayload where
  entity_id : String
  brightness : Option Int
  color_temp : Option Int
deriving DecidableEq

/-- One `ha_call_service(domain, service, data)` invocation. -/
structure ServiceCall where
  domain : String
  service : String
  data : ServicePayload
deriving DecidableEq

/-- `set_light` (lines 107–121), returning the service call it issues.
Brightness is clamped by `max(1, min(255, brightness))`; kelvin is turned
into mireds by `int(1_000_000 / kelvin)` (no caller passes kelvin 0). -/
def set_light (brightness kelvin : Option Int) (toggle : Bool) : ServiceCall :=
  if toggle then
    { domain := "light", service := "toggle"
      data := { entity_id := LIGHT_ENTITY, brightness := none, color_temp := none } }
  else
    { domain := "light", service := "turn_on"
      data := { entity_id := LIGHT_ENTITY
                brightness := brightness.map (fun b => max 1 (min 255 b))
                color_temp := kelvin.map (fun k => Int.tdiv 1000000 k) } }

/-- The next-kelvin computation inside `cycle_color_temp` (lines 123–128).
`current_k = light_info.get("kelvin") or NEUTRAL_K` (falsy default);
`diffs.index(min(diffs))` is the first index attaining the minimal
absolute difference; `presets[(idx + 1) % len(presets)]` wraps. -/
def cycle_next_k (light_info : LightInfo) : Int :=
  let current_k := falsyOr light_info.kelvin NEUTRAL_K
  let d0 := (current_k - WARM_K).natAbs
  let d1 := (current_k - NEUTRAL_K).natAbs
  let d2 := (current_k - COOL_K).natAbs
  let idx : Nat := if d0 ≤ d1 ∧ d0 ≤ d2 then 0 else if d1 ≤ d2 then 1 else 2
  if idx = 0 then NEUTRAL_K else if idx = 1 then COOL_K else WARM_K

/-- `cycle_color_temp` (line 129): set the next preset, preserving the
current brightness reading. -/
def cycle_color_temp (light_info : LightInfo) : ServiceCall :=
  set_light light_info.brightness (some (cycle_next_k light_info)) false

/-- One fixed assignment of remote outcomes per entity, standing for what
`ha_get_state` returns for each entity while one handler runs. -/
structure Remote where
  light : StateResult
  weather : StateResult
  adaptive : StateResult
deriving DecidableEq

/-- Observable effect of running one handler to completion: the entity ids
read via `ha_get_state` in order, the service calls issued in order, and
the number of completed `refresh_display` reconciliations. -/
structure Effect where
  reads : List String
  calls : List ServiceCall
  refreshes : Nat
deriving DecidableEq

/-- Effect of `refresh_display` (lines 200–204): read light, weather and
adaptive state, then render once.  Raises if either dict read raises. -/
def refreshEffect (r : Remote) : Except String Effect :=
  match get_light_info r.light with
  | .error e => .error e
  | .ok _ =>
    match get_weather_info r.weather with
    | .error e => .error e
    | .ok _ =>
      .ok { reads := [LIGHT_ENTITY, WEATHER_ENTITY, ADAPTIVE_SWITCH]
            calls := [], refreshes := 1 }

/-- The module-level `state_cache` dict. -/
structure Cache where
  light : LightInfo
  weather : Option WeatherInfo
  adaptive : Bool
deriving DecidableEq

/-- The full body of `refresh_display` as a cache transformation: all three
fields rebuilt from fresh reads (the previous cache contents do not feed
into the result). -/
def runRefresh (r : Remote) : Except String Cache :=
  match get_light_info r.light with
  | .error e => .error e
  | .ok li =>
    match get_weather_info r.weather with
    | .error e => .error e
    | .ok wi => .ok { light := li, weather := wi, adaptive := get_adaptive_on r.adaptive }

/-- The cache as it stands between line 201 (`state_cache["light"] = ...`)
and line 202 (`state_cache["weather"] = ...`): only the light field has
been overwritten.  This intermediate state is observable, because the
cache is a plain dict mutated field by field with no lock. -/
def cacheAfterLightWrite (r : Remote) (c : Cache) : Except String Cache :=
  match get_light_info r.light with
  | .error e => .error e
  | .ok li => .ok { c with light := li }

/-- `on_btn1` (lines 206–215): read the adaptive switch, toggle it via a
switch service call, then refresh. -/
def on_btn1_run (r : Remote) : Except String Effect :=
  let current := get_adaptive_on r.adaptive
  let call : ServiceCall :=
    if current then
      { domain := "switch", service := "turn_off"
        data := { entity_id := ADAPTIVE_SWITCH, brightness := none, color_temp := none } }
    else
      { domain := "switch", service := "turn_on"
        data := { entity_id := ADAPTIVE_SWITCH, brightness := none, color_temp := none } }
  match refreshEffect r with
  | .error e => .error e
  | .ok re =>
    .ok { reads := ADAPTIVE_SWITCH :: re.reads, calls := call :: re.calls
          refreshes := re.refreshes }

/-- `on_btn2` (lines 217–222): fresh light read, `bri or 128`, set
brightness `bri + 25` (clamped inside `set_light`), refresh. -/
def on_btn2_run (r : Remote) : Except String Effect :=
  match get_light_info r.light with
  | .error e => .error e
  | .ok info =>
    let bri := falsyOr info.brightness 128
    let call := set_light (some (bri + 25)) none false
    match refreshEffect r with
    | .error e => .error e
    | .ok re =>
      .ok { reads := LIGHT_ENTITY :: re.reads, calls := call :: re.calls
            refreshes := re.refreshes }

/-- `on_btn3` (lines 224–229): as button 2 with `bri - 25`. -/
def on_btn3_run (r : Remote) : Except String Effect :=
  match get_light_info r.light with
  | .error e => .error e
  | .ok info =>
    let bri := falsyOr info.brightness 128
    let call := set_light (some (bri - 25)) none false
    match refreshEffect r with
    | .error e => .error e
    | .ok re =>
      .ok { reads := LIGHT_ENTITY :: re.reads, calls := call :: re.calls
            refreshes := re.refreshes }

/-- `on_btn4` (lines 231–239): check adaptive mode (one remote read); if
off, log and return — no further read, no mutation, no refresh.  If on,
read the light, cycle the color temperature, refresh. -/
def on_btn4_run (r : Remote) : Except String Effect :=
  if get_adaptive_on r.adaptive = false then
    .ok { reads := [ADAPTIVE_SWITCH], calls := [], refreshes := 0 }
  else
    match get_light_info r.light with
    | .error e => .error e
    | .ok info =>
      match refreshEffect r with
      | .error e => .error e
      | .ok re =>
        .ok { reads := ADAPTIVE_SWITCH :: LIGHT_ENTITY :: re.reads
              calls := cycle_color_temp info :: re.calls
              refreshes := re.refreshes }

/-- A refresh trigger: the periodic timer check in `main` (lines 252–258)
or one of the four button callbacks registered at lines 241–244. -/
inductive Trigger
  | timer
  | b1
  | b2
  | b3
  | b4
deriving DecidableEq

/-- Dispatch of one trigger to the code the script runs for it.  There is
no queue, no pending flag and no lock anywhere in the script: the timer
branch and each `when_pressed` callback invoke `refresh_display`
directly. -/
def triggerEffect (r : Remote) : Trigger → Except String Effect
  | .timer => refreshEffect r
  | .b1 => on_btn1_run r
  | .b2 => on_btn2_run r
  | .b3 => on_btn3_run r
  | .b4 => on_btn4_run r

/-- Completed reconciliations of one handler run (0 when it raised before
reaching `draw_panel`). -/
def refreshCountOf (x : Except String Effect) : Nat :=
  match x with
  | .ok e => e.refreshes
  | .error _ => 0

/-- Total number of reconciliations the script runs for a list of
triggers: each trigger executes its own handler in full, so the counts
simply add up. -/
def reconciliationsRun (r : Remote) (ts : List Trigger) : Nat :=
  (ts.map (fun t => refreshCountOf (triggerEffect r t))).sum

/-- A response is protocol-conforming when, if present, it carries the
`state` string the hub's `/api/states` endpoint always returns. -/
def stateOk : StateResult → Bool
  | none => true
  | some d => d.state.isSome

/-- All three entity outcomes are absent or protocol-conforming. -/
def wellFormed (r : Remote) : Bool :=
  stateOk r.light && stateOk r.weather && stateOk r.adaptive

/-- The spec's cycler algorithm, from its words: find the preset among
warm, neutral, cool with minimum absolute difference to `k` (ties broken
by first occurrence in preset order), then output the next preset in the
list, wrapping from last to first. -/
def specNextPreset (k : Int) : Int :=
  if (k - WARM_K).natAbs ≤ (k - NEUTRAL_K).natAbs ∧
      (k - WARM_K).natAbs ≤ (k - COOL_K).natAbs then NEUTRAL_K
  else if (k - NEUTRAL_K).natAbs ≤ (k - COOL_K).natAbs then COOL_K
  else WARM_K

/-- Round-half-up division `round(a / b)` on naturals, used to state the
spec's `round(...)` formulas. -/
def specRoundDiv (a b : Nat) : Nat := (2 * a + b) / (2 * b)

/-- Modelled from the spec: the external hub's semantics for a light
service call acting on the light's power state (`light.turn_on` powers the
light on regardless of prior state).  The hub itself is outside the
repository; this is the collaborator contract of the External Interfaces
section. -/
def applyLightService (c : ServiceCall) (p : Bool) : Bool :=
  if c.domain == "light" then
    if c.service == "turn_on" then true
    else if c.service == "turn_off" then false
    else if c.service == "toggle" then !p
    else p
  else p

/-- An optional brightness parameter lies in the clamp range `[1, 255]`
whenever it is present. -/
def inClampRange : Option Int → Bool
  | none => true
  | some b => 1 ≤ b && b ≤ 255

/-- A light mutation as the spec demands it: `light.turn_on` with any
brightness clamped into `[1, 255]`. -/
def goodLightCall (c : ServiceCall) : Bool :=
  c.domain == "light" && c.service == "turn_on" && inClampRange c.data.brightness

/-! Concrete sample data used by counterexamples and witnesses. -/

/-- All three remote reads fail (network error / timeout / non-success). -/
def remoteAllAbsent : Remote := { light := none, weather := none, adaptive := none }

/-- A light response that is on with a given brightness attribute. -/
def respWithBrightness (b : Option Int) : HAResponse :=
  { state := some "on"
    attributes := { brightness := b, color_temp := none, temperature := none } }

/-- A light response that is on with a given `color_temp` (mired) attribute. -/
def respWithMired (m : Int) : HAResponse :=
  { state := some "on"
    attributes := { brightness := none, color_temp := some m, temperature := none } }

/-- A switch response whose state is `"off"`. -/
def respOff : HAResponse :=
  { state := some "off"
    attributes := { brightness := none, color_temp := none, temperature := none } }

/-- A weather response with a temperature and a condition label. -/
def respWeather (t : Int) (cond : String) : HAResponse :=
  { state := some cond
    attributes := { brightness := none, color_temp := none, temperature := some t } }

/-- Remote where only the light read succeeds, with the given brightness. -/
def remoteWithBrightness (b : Option Int) : Remote :=
  { light := some (respWithBrightness b), weather := none, adaptive := none }

/-- Remote whose adaptive switch reports `"off"`. -/
def remoteAdaptiveOff : Remote :=
  { light := none, weather := none, adaptive := some respOff }

/-- Remote with brightness 250 on the light. -/
def remote250 : Remote := remoteWithBrightness (some 250)

/-- The `get_light_info` result for `remote250`. -/
def info250 : LightInfo :=
  { state := "on", brightness := some 250, brightness_pct := some 98
    mired := none, kelvin := none }

/-- A light dict carrying only a kelvin reading. -/
def infoWithKelvin (k : Option Int) : LightInfo :=
  { state := "on", brightness := none, brightness_pct := none
    mired := none, kelvin := k }

/-- Remote for the "old" reading in the cache-atomicity scenario. -/
def remoteOld : Remote :=
  { light := some (respWithBrightness (some 100))
    weather := some (respWeather 20 "sunny"), adaptive := none }

/-- Remote for the "new" reading in the cache-atomicity scenario. -/
def remoteNew : Remote :=
  { light := some (respWithBrightness (some 200))
    weather := some (respWeather 5 "rainy"), adaptive := none }

/-- Complete snapshot built from `remoteOld`. -/
def cacheOld : Cache :=
  { light := { state := "on", brightness := some 100, brightness_pct := some 39
               mired := none, kelvin := none }
    weather := some { temp := 20, condition := "sunny" }
    adaptive := false }

/-- Complete snapshot built from `remoteNew`. -/
def cacheNew : Cache :=
  { light := { state := "on", brightness := some 200, brightness_pct := some 78
               mired := none, kelvin := none }
    weather := some { temp := 5, condition := "rainy" }
    adaptive := false }

/-- The mixed snapshot visible between the first and second cache writes of
a refresh against `remoteNew` starting from `cacheOld`. -/
def cacheMid : Cache :=
  { light := cacheNew.light, weather := cacheOld.weather, adaptive := false }

/-- Kelvin value `get_light_info` reports for a light whose `color_temp`
attribute is `m` mireds. -/
def kelvinReadBack (m : Int) : Option Int :=
  match get_light_info (some (respWithMired m)) with
  | .ok i => i.kelvin
  | .error _ => none

/-- The light read at brightness 128. -/
def resp128 : HAResponse := respWithBrightness (some 128)

/-- The `get_light_info` result for `resp128`. -/
def info128 : LightInfo :=
  { state := "on", brightness := some 128, brightness_pct := some 50
    mired := none, kelvin := none }

/-- The `get_light_info` result for `respWithMired 370`. -/
def info370 : LightInfo :=
  { state := "on", brightness := none, brightness_pct := none
    mired := some 370, kelvin := some 2702 }

/-- Effect of a button-2 press against `remoteAllAbsent`. -/
def effB2Absent : Effect :=
  { reads := [LIGHT_ENTITY, LIGHT_ENTITY, WEATHER_ENTITY, ADAPTIVE_SWITCH]
    calls := [set_light (some (128 + 25)) none false]
    refreshes := 1 }

/-- Brightness parameter of the first service call issued by a handler
run, when any. -/
def writtenBrightness (x : Except String Effect) : Option Int :=
  match x with
  | .ok e =>
    match e.calls with
    | [] => none
    | c :: _ => c.data.brightness
  | .error _ => none

/-! Helper lemmas. -/

lemma get_light_info_ok_of_stateOk (d : StateResult) (h : stateOk d = true) :
    ∃ li, get_light_info d = .ok li := by
  cases d with
  | none => exact ⟨unknownLight, rfl⟩
  | some d' =>
    obtain ⟨st, attrs⟩ := d'
    cases st with
    | none => simp [stateOk] at h
    | some s => exact ⟨_, rfl⟩

lemma get_weather_info_ok_of_stateOk (d : StateResult) (h : stateOk d = true) :
    ∃ w, get_weather_info d = .ok w := by
  cases d with
  | none => exact ⟨none, rfl⟩
  | some d' =>
    obtain ⟨st, b, ct, tp⟩ := d'
    cases st with
    | none => simp [stateOk] at h
    | some s =>
      cases tp with
      | none => exact ⟨none, rfl⟩
      | some t => exact ⟨_, rfl⟩

lemma wellFormed_parts (r : Remote) (h : wellFormed r = true) :
    stateOk r.light = true ∧ stateOk r.weather = true ∧ stateOk r.adaptive = true := by
  unfold wellFormed at h
  simp only [Bool.and_eq_true] at h
  exact ⟨h.1.1, h.1.2, h.2⟩

lemma refreshEffect_of_wellFormed (r : Remote) (h : wellFormed r = true) :
    refreshEffect r =
      .ok { reads := [LIGHT_ENTITY, WEATHER_ENTITY, ADAPTIVE_SWITCH]
            calls := [], refreshes := 1 } := by
  obtain ⟨h1, h2, _⟩ := wellFormed_parts r h
  obtain ⟨li, hli⟩ := get_light_info_ok_of_stateOk _ h1
  obtain ⟨wi, hwi⟩ := get_weather_info_ok_of_stateOk _ h2
  unfold refreshEffect
  rw [hli, hwi]

lemma triggerEffect_refreshCount (r : Remote) (h : wellFormed r = true) (t : Trigger)
    (hb4 : t = Trigger.b4 → get_adaptive_on r.adaptive = true) :
    refreshCountOf (triggerEffect r t) = 1 := by
  have hre := refreshEffect_of_wellFormed r h
  obtain ⟨h1, _, _⟩ := wellFormed_parts r h
  obtain ⟨li, hli⟩ := get_light_info_ok_of_stateOk _ h1
  cases t with
  | timer => simp [triggerEffect, hre, refreshCountOf]
  | b1 => simp [triggerEffect, on_btn1_run, hre, refreshCountOf]
  | b2 => simp [triggerEffect, on_btn2_run, hli, hre, refreshCountOf]
  | b3 => simp [triggerEffect, on_btn3_run, hli, hre, refreshCountOf]
  | b4 =>
    have ha := hb4 rfl
    simp [triggerEffect, on_btn4_run, ha, hli, hre, refreshCountOf]

lemma refreshEffect_calls_nil (r : Remote) (re : Effect)
    (h : refreshEffect r = .ok re) : re.calls = [] := by
  unfold refreshEffect at h
  cases hl : get_light_info r.light with
  | error e => rw [hl] at h; exact absurd h (by simp)
  | ok li =>
    rw [hl] at h
    cases hw : get_weather_info r.weather with
    | error e => rw [hw] at h; exact absurd h (by simp)
    | ok wi =>
      rw [hw] at h
      cases h
      rfl

lemma clamp_swap (x : Int) : max 1 (min 255 x) = min 255 (max 1 x) := by omega

/-! Claims. -/

/-- C1, counterexample: two refresh triggers arriving while a
reconciliation is in flight run two additional reconciliations, not
exactly one — the script has no pending-flag or coalescing: the timer
branch and every button callback each invoke `refresh_display` directly,
so N triggers always run N reconciliations. -/
theorem c1_counterexample :
    reconciliationsRun remoteAllAbsent [Trigger.timer, Trigger.b2] = 2 ∧
    (2 : Nat) ≠ 1 := by
  decide

/-- C1, amended: triggers are neither serialized nor coalesced.  Each
accepted trigger (a timer tick, a button 1–3 press, or a button 4 press
with adaptive mode on) synchronously runs one full reconciliation of its
own in the context that raised it, so N triggers produce N
reconciliations — never a single coalesced follow-up. -/
theorem c1_each_trigger_runs_own_reconciliation (r : Remote) (ts : List Trigger)
    (h : wellFormed r = true)
    (hb4 : ∀ t ∈ ts, t = Trigger.b4 → get_adaptive_on r.adaptive = true) :
    reconciliationsRun r ts = ts.length := by
  induction ts with
  | nil => rfl
  | cons t ts ih =>
    have h1 : refreshCountOf (triggerEffect r t) = 1 :=
      triggerEffect_refreshCount r h t (hb4 t (by simp))
    have h2 := ih (fun u hu hb => hb4 u (by simp [hu]) hb)
    simp only [reconciliationsRun, List.map_cons, List.sum_cons, List.length_cons] at h2 ⊢
    omega

/-- C1, witness: three accepted triggers run three reconciliations. -/
theorem c1_each_trigger_runs_own_reconciliation_witness :
    reconciliationsRun remoteAllAbsent [Trigger.timer, Trigger.b2, Trigger.b3] = 3 := by
  have h := c1_each_trigger_runs_own_reconciliation remoteAllAbsent
    [Trigger.timer, Trigger.b2, Trigger.b3] (by decide) (by decide)
  simpa using h

/-- C2, counterexample: with the light's brightness attribute equal to 0
(a known value in 0–255), a Button 2 press writes brightness 153, because
`info.get("brightness") or 128` treats 0 as falsy and substitutes 128 —
not 25 = min(255, max(1, 0 + 25)) as the claim requires. -/
theorem c2_counterexample :
    writtenBrightness (on_btn2_run (remoteWithBrightness (some 0))) = some 153 ∧
    min 255 (max 1 ((0 : Int) + 25)) = 25 ∧
    (153 : Int) ≠ 25 := by
  decide

/-- C2, amended: for every Button 2 press the brightness written is
min(255, max(1, b + 25)) and for Button 3 min(255, max(1, b − 25)), where
b is the brightness freshly read from the remote, with 128 substituted
when that brightness is unknown or zero (Python truthiness). -/
theorem c2_brightness_clamped (r : Remote) (info : LightInfo)
    (hinfo : get_light_info r.light = .ok info)
    (hok : (refreshEffect r).isOk = true) :
    writtenBrightness (on_btn2_run r) =
      some (min 255 (max 1 (falsyOr info.brightness 128 + 25))) ∧
    writtenBrightness (on_btn3_run r) =
      some (min 255 (max 1 (falsyOr info.brightness 128 - 25))) := by
  cases hre : refreshEffect r with
  | error e => rw [hre] at hok; simp [Except.isOk, Except.toBool] at hok
  | ok re =>
    constructor
    · simp [on_btn2_run, hinfo, hre, writtenBrightness, set_light, clamp_swap]
    · simp [on_btn3_run, hinfo, hre, writtenBrightness, set_light, clamp_swap]

/-- C2, witness: at brightness 250, Button 2 writes 255 (clamped) and
Button 3 writes 225. -/
theorem c2_brightness_clamped_witness :
    writtenBrightness (on_btn2_run remote250) = some 255 ∧
    writtenBrightness (on_btn3_run remote250) = some 225 := by
  have h := c2_brightness_clamped remote250 info250 (by decide) (by decide)
  exact ⟨h.1.trans (by decide), h.2.trans (by decide)⟩

/-- C3, counterexample: a light reading with mired 2,000,000 derives
kelvin 0, a known value; the cycler then outputs 6000 (the falsy default
`kelvin or 4000` replaces 0 by the neutral preset, whose successor is
6000) whereas the claim's algorithm at k = 0 picks nearest preset 2700 and
outputs 4000. -/
theorem c3_counterexample :
    get_light_info (some (respWithMired 2000000)) =
      .ok { state := "on", brightness := none, brightness_pct := none
            mired := some 2000000, kelvin := some 0 } ∧
    cycle_next_k { state := "on", brightness := none, brightness_pct := none
                   mired := some 2000000, kelvin := some 0 } = 6000 ∧
    specNextPreset 0 = 4000 ∧
    (6000 : Int) ≠ 4000 := by
  decide

/-- C3, amended: the cycler implements the spec's nearest-then-next
algorithm applied to the current kelvin, except that the neutral preset
4000 is substituted not only when kelvin is unknown but also when it is
zero; the particular transitions 2700 → 4000, 4000 → 6000, 6000 → 2700,
3000 → 4000 and unknown → 6000 all hold. -/
theorem c3_cycler_follows_spec_up_to_falsy_default :
    (∀ info : LightInfo,
      cycle_next_k info = specNextPreset (falsyOr info.kelvin NEUTRAL_K)) ∧
    cycle_next_k (infoWithKelvin (some 2700)) = 4000 ∧
    cycle_next_k (infoWithKelvin (some 4000)) = 6000 ∧
    cycle_next_k (infoWithKelvin (some 6000)) = 2700 ∧
    cycle_next_k (infoWithKelvin (some 3000)) = 4000 ∧
    cycle_next_k (infoWithKelvin none) = 6000 := by
  refine ⟨fun info => ?_, by decide, by decide, by decide, by decide, by decide⟩
  simp only [cycle_next_k, specNextPreset]
  split_ifs <;> simp_all

/-- C4, counterexample: a Button 4 press with adaptive mode off issues one
call to the remote-state client — the `get_adaptive_on()` read performing
the press-time check — not zero calls as the claim states (it does issue
zero service calls and zero refreshes). -/
theorem c4_counterexample :
    on_btn4_run remoteAdaptiveOff =
      .ok { reads := [ADAPTIVE_SWITCH], calls := [], refreshes := 0 } ∧
    [ADAPTIVE_SWITCH].length = 1 ∧
    (1 : Nat) ≠ 0 := by
  decide

/-- C4, amended: for every Button 4 press while adaptive mode is off
(checked at press time), the press performs no remote mutation and
triggers no refresh/reconciliation, and its only RemoteStateClient
interaction is the single adaptive-mode entity read used for the check. -/
theorem c4_btn4_off_single_read_no_mutation (r : Remote)
    (h : get_adaptive_on r.adaptive = false) :
    on_btn4_run r = .ok { reads := [ADAPTIVE_SWITCH], calls := [], refreshes := 0 } := by
  simp [on_btn4_run, h]

/-- C4, witness: concrete press with all remote reads failing (mode reads
as off). -/
theorem c4_btn4_off_single_read_no_mutation_witness :
    on_btn4_run remoteAllAbsent =
      .ok { reads := [ADAPTIVE_SWITCH], calls := [], refreshes := 0 } :=
  c4_btn4_off_single_read_no_mutation remoteAllAbsent (by decide)

/-- C5, confirmed: for every remote-read outcome in the claim's taxonomy —
network error / timeout / non-success (the `none` outcome of
`ha_get_state`) or a protocol-conforming response missing an expected
attribute (`brightness`, `color_temp`, `temperature`) — the read functions
return the specified fallbacks without raising: a failed light read yields
the unknown-marker dict, a failed weather read or missing temperature
yields `none`, a failed mode read yields `false`, and every reconciliation
and button handler completes, so the control loop never terminates on a
remote error. -/
theorem c5_remote_failures_fall_back (r : Remote) (h : wellFormed r = true) :
    get_light_info none = .ok unknownLight ∧
    get_weather_info none = .ok none ∧
    get_adaptive_on none = false ∧
    (runRefresh r).isOk = true ∧
    (∀ t : Trigger, (triggerEffect r t).isOk = true) ∧
    (∀ d : HAResponse, d.state = none → get_adaptive_on (some d) = false) ∧
    (∀ d : HAResponse, r.weather = some d → d.attributes.temperature = none →
      get_weather_info r.weather = .ok none) ∧
    (∀ (d : HAResponse) (info : LightInfo),
      r.light = some d → get_light_info r.light = .ok info →
      (d.attributes.brightness = none →
        info.brightness = none ∧ info.brightness_pct = none) ∧
      (d.attributes.color_temp = none →
        info.mired = none ∧ info.kelvin = none)) := by
  obtain ⟨h1, h2, h3⟩ := wellFormed_parts r h
  obtain ⟨li, hli⟩ := get_light_info_ok_of_stateOk _ h1
  obtain ⟨wi, hwi⟩ := get_weather_info_ok_of_stateOk _ h2
  have hre := refreshEffect_of_wellFormed r h
  refine ⟨rfl, rfl, rfl, ?_, ?_, ?_, ?_, ?_⟩
  · simp [runRefresh, hli, hwi, Except.isOk, Except.toBool]
  · intro t
    cases t with
    | timer => simp [triggerEffect, hre, Except.isOk, Except.toBool]
    | b1 => simp [triggerEffect, on_btn1_run, hre, Except.isOk, Except.toBool]
    | b2 => simp [triggerEffect, on_btn2_run, hli, hre, Except.isOk, Except.toBool]
    | b3 => simp [triggerEffect, on_btn3_run, hli, hre, Except.isOk, Except.toBool]
    | b4 =>
      cases ha : get_adaptive_on r.adaptive with
      | false => simp [triggerEffect, on_btn4_run, ha, Except.isOk, Except.toBool]
      | true => simp [triggerEffect, on_btn4_run, ha, hli, hre, Except.isOk, Except.toBool]
  · intro d hd
    simp [get_adaptive_on, hd]
  · intro d hw ht
    rw [hw] at h2 ⊢
    obtain ⟨st, b, ct, tp⟩ := d
    cases st with
    | none => simp [stateOk] at h2
    | some s =>
      cases tp with
      | none => rfl
      | some t => simp at ht
  · intro d info hl hinfo
    rw [hl] at hinfo
    obtain ⟨st, b, ct, tp⟩ := d
    cases st with
    | none => simp [get_light_info] at hinfo
    | some s =>
      dsimp only [get_light_info] at hinfo
      injection hinfo with hinfo
      subst hinfo
      constructor
      · intro hb
        cases b with
        | none => exact ⟨rfl, rfl⟩
        | some bv => simp at hb
      · intro hct
        cases ct with
        | none => exact ⟨rfl, rfl⟩
        | some cv => simp at hct

/-- C5, witness: with all three reads failing, the fallbacks are produced
and the reconciliation completes. -/
theorem c5_remote_failures_fall_back_witness :
    get_light_info none = .ok unknownLight ∧
    get_weather_info none = .ok none ∧
    get_adaptive_on none = false ∧
    (runRefresh remoteAllAbsent).isOk = true := by
  have h := c5_remote_failures_fall_back remoteAllAbsent (by decide)
  exact ⟨h.1, h.2.1, h.2.2.1, h.2.2.2.1⟩

/-- C6, counterexample: the cache is not replaced atomically.  Starting
from the complete snapshot of one reading, a refresh against a changed
remote first overwrites only the light field (line 201); the cache state
between that write and the weather write (line 202) mixes the new light
reading with the old weather — it equals neither the old nor the new
complete snapshot. -/
theorem c6_counterexample :
    runRefresh remoteOld = .ok cacheOld ∧
    runRefresh remoteNew = .ok cacheNew ∧
    cacheAfterLightWrite remoteNew cacheOld = .ok cacheMid ∧
    cacheMid ≠ cacheOld ∧
    cacheMid ≠ cacheNew ∧
    cacheMid.light = cacheNew.light ∧
    cacheMid.weather = cacheOld.weather := by
  decide

/-- C6, amended: `refresh_display` updates the cache dict field by field
(light, then weather, then adaptive); after the first assignment a
concurrent reader observes the new light reading combined with the
previous weather and mode rather than an atomic whole-snapshot swap. -/
theorem c6_cache_updated_fieldwise (r : Remote) (c : Cache) (li : LightInfo)
    (h : get_light_info r.light = .ok li) :
    cacheAfterLightWrite r c =
      .ok { light := li, weather := c.weather, adaptive := c.adaptive } := by
  simp [cacheAfterLightWrite, h]

/-- C6, witness: the concrete mid-refresh cache state. -/
theorem c6_cache_updated_fieldwise_witness :
    cacheAfterLightWrite remoteNew cacheOld =
      .ok { light := cacheNew.light, weather := cacheOld.weather
            adaptive := cacheOld.adaptive } :=
  c6_cache_updated_fieldwise remoteNew cacheOld cacheNew.light (by decide)

/-- C7, counterexample: at brightness 4 the snapshot's percentage is 1
(the code truncates `int(4 / 255 * 100)` = 1), while
round(4 / 255 × 100) = round(1.568…) = 2. -/
theorem c7_counterexample :
    get_light_info (some (respWithBrightness (some 4))) =
      .ok { state := "on", brightness := some 4, brightness_pct := some 1
            mired := none, kelvin := none } ∧
    specRoundDiv (4 * 100) 255 = 2 ∧
    some (1 : Int) ≠ some (2 : Int) := by
  decide

/-- C7, amended: for every light reading with a known brightness b in
0–255, the derived percentage equals the truncation ⌊b / 255 × 100⌋, not
the rounding. -/
theorem c7_pct_is_truncated (b : Nat) (_hb : b ≤ 255) (d : HAResponse) (info : LightInfo)
    (hbri : d.attributes.brightness = some (b : Int))
    (hinfo : get_light_info (some d) = .ok info) :
    info.brightness_pct = some ((b * 100 / 255 : Nat) : Int) := by
  obtain ⟨st, bb, ct, tp⟩ := d
  cases st with
  | none => simp [get_light_info] at hinfo
  | some s =>
    dsimp only [get_light_info] at hinfo
    injection hinfo with hinfo
    subst hinfo
    rw [show bb = some (b : Int) from hbri]
    have hcast : ((b : Int) * 100) = ((b * 100 : Nat) : Int) := by push_cast; ring
    dsimp only
    rw [hcast]
    rfl

/-- C7, witness: brightness 128 yields 50 percent. -/
theorem c7_pct_is_truncated_witness :
    info128.brightness_pct = some ((128 * 100 / 255 : Nat) : Int) :=
  c7_pct_is_truncated 128 (by decide) resp128 info128 (by decide) (by decide)

/-- C8, counterexample: kelvin is truncated, not rounded — a light at 370
mireds reads back as 2702 K while round(1,000,000 / 370) = 2703 — and the
program's kelvin→mired→kelvin round trip is not within ±1 for the presets:
`set_light` converts 6000 K to 166 mireds, which reads back as 6024 K. -/
theorem c8_counterexample :
    kelvinReadBack 370 = some 2702 ∧
    specRoundDiv 1000000 370 = 2703 ∧
    some (2702 : Int) ≠ some (2703 : Int) ∧
    (set_light none (some 6000) false).data.color_temp = some 166 ∧
    kelvinReadBack 166 = some 6024 ∧
    ¬((6000 - 1 : Int) ≤ 6024 ∧ (6024 : Int) ≤ 6000 + 1) := by
  decide

/-- C8, amended: kelvin is derived from mired by truncation,
kelvin = ⌊1,000,000 / mired⌋, and the round trip through the program's
truncating conversions gives 2700 → 370 mired → 2702 K,
4000 → 250 mired → 4000 K, and 6000 → 166 mired → 6024 K: only the 4000 K
preset round-trips within ±1. -/
theorem c8_truncated_conversions :
    (∀ m : Int, m ≠ 0 → kelvinReadBack m = some (Int.tdiv 1000000 m)) ∧
    (set_light none (some 2700) false).data.color_temp = some 370 ∧
    kelvinReadBack 370 = some 2702 ∧
    (set_light none (some 4000) false).data.color_temp = some 250 ∧
    kelvinReadBack 250 = some 4000 ∧
    (set_light none (some 6000) false).data.color_temp = some 166 ∧
    kelvinReadBack 166 = some 6024 := by
  refine ⟨fun m hm => ?_, by decide, by decide, by decide, by decide, by decide, by decide⟩
  simp [kelvinReadBack, get_light_info, respWithMired, hm]

/-- C8, witness: the truncated derivation at 370 mireds. -/
theorem c8_truncated_conversions_witness :
    kelvinReadBack 370 = some (Int.tdiv 1000000 370) :=
  c8_truncated_conversions.1 370 (by decide)

/-- C9, counterexample: a light response whose `color_temp` attribute is 0
produces a snapshot with mired present (`some 0`) but kelvin absent,
because `if color_temp:` treats the present value 0 as falsy — so kelvin
present iff mired present fails. -/
theorem c9_counterexample :
    get_light_info (some (respWithMired 0)) =
      .ok { state := "on", brightness := none, brightness_pct := none
            mired := some 0, kelvin := none } ∧
    (some (0 : Int)).isSome = true ∧
    (none : Option Int).isSome = false := by
  decide

/-- C9, amended: in every snapshot produced by a light read, mired is the
raw `color_temp` attribute, kelvin is present iff mired is present and
nonzero, and when present kelvin is derived from that same mired value by
truncated division; in the failed-read marker both fields are absent. -/
theorem c9_kelvin_iff_mired_nonzero (d : HAResponse) (info : LightInfo)
    (hinfo : get_light_info (some d) = .ok info) :
    info.mired = d.attributes.color_temp ∧
    (info.kelvin.isSome = true ↔ ∃ m, info.mired = some m ∧ m ≠ 0) ∧
    (∀ m : Int, info.mired = some m → m ≠ 0 →
      info.kelvin = some (Int.tdiv 1000000 m)) ∧
    (info.mired = none → info.kelvin = none) ∧
    unknownLight.mired = none ∧ unknownLight.kelvin = none := by
  obtain ⟨st, b, ct, tp⟩ := d
  cases st with
  | none => simp [get_light_info] at hinfo
  | some s =>
    dsimp only [get_light_info] at hinfo
    injection hinfo with hinfo
    subst hinfo
    refine ⟨rfl, ?_, ?_, ?_, rfl, rfl⟩
    · cases ct with
      | none => simp
      | some m =>
        by_cases hm : m = 0
        · subst hm; simp
        · simp [hm]
    · intro m hm hm0
      cases ct with
      | none => simp at hm
      | some mv =>
        simp at hm
        subst hm
        simp [hm0]
    · intro hct
      cases ct with
      | none => rfl
      | some mv => simp at hct

/-- C9, witness: at 370 mireds the snapshot has mired `some 370` and
kelvin derived from it. -/
theorem c9_kelvin_iff_mired_nonzero_witness :
    info370.mired = (respWithMired 370).attributes.color_temp ∧
    info370.kelvin = some (Int.tdiv 1000000 370) := by
  have h := c9_kelvin_iff_mired_nonzero (respWithMired 370) info370 (by decide)
  exact ⟨h.1, h.2.2.1 370 rfl (by decide)⟩

/-- C10, confirmed: every light mutation issued by buttons 2, 3 and 4 is a
`light.turn_on` service call whose brightness parameter, when present, is
clamped into [1, 255]; under the hub's service semantics such a call
leaves the light powered on whether it was previously off or on — so a
Dimmer press never powers the light off and a Brighter/Dimmer press on an
off light turns it on. -/
theorem c10_mutations_are_clamped_turn_on (r : Remote) (t : Trigger) (e : Effect)
    (ht : t = Trigger.b2 ∨ t = Trigger.b3 ∨ t = Trigger.b4)
    (he : triggerEffect r t = .ok e) :
    e.calls.all
      (fun c => goodLightCall c && applyLightService c false && applyLightService c true)
      = true := by
  rcases ht with rfl | rfl | rfl
  · cases hli : get_light_info r.light with
    | error err => simp [triggerEffect, on_btn2_run, hli] at he
    | ok info =>
      cases hre : refreshEffect r with
      | error err => simp [triggerEffect, on_btn2_run, hli, hre] at he
      | ok re =>
        have hc := refreshEffect_calls_nil r re hre
        simp [triggerEffect, on_btn2_run, hli, hre] at he
        subst he
        simp [hc, set_light, goodLightCall, inClampRange, applyLightService]
  · cases hli : get_light_info r.light with
    | error err => simp [triggerEffect, on_btn3_run, hli] at he
    | ok info =>
      cases hre : refreshEffect r with
      | error err => simp [triggerEffect, on_btn3_run, hli, hre] at he
      | ok re =>
        have hc := refreshEffect_calls_nil r re hre
        simp [triggerEffect, on_btn3_run, hli, hre] at he
        subst he
        simp [hc, set_light, goodLightCall, inClampRange, applyLightService]
  · cases ha : get_adaptive_on r.adaptive with
    | false =>
      simp [triggerEffect, on_btn4_run, ha] at he
      subst he
      rfl
    | true =>
      cases hli : get_light_info r.light with
      | error err => simp [triggerEffect, on_btn4_run, ha, hli] at he
      | ok info =>
        cases hre : refreshEffect r with
        | error err => simp [triggerEffect, on_btn4_run, ha, hli, hre] at he
        | ok re =>
          have hc := refreshEffect_calls_nil r re hre
          simp [triggerEffect, on_btn4_run, ha, hli, hre] at he
          subst he
          simp [hc, cycle_color_temp, set_light, goodLightCall, inClampRange,
            applyLightService]
          cases hb : info.brightness with
          | none => simp
          | some bv => simp

/-- C10, witness: a concrete Button 2 press issues exactly the clamped
`light.turn_on` call. -/
theorem c10_mutations_are_clamped_turn_on_witness :
    effB2Absent.calls.all
      (fun c => goodLightCall c && applyLightService c false && applyLightService c true)
      = true :=
  c10_mutations_are_clamped_turn_on remoteAllAbsent Trigger.b2 effB2Absent
    (Or.inl rfl) (by decide)

end BasementLights
